import Mathlib

/-!
Shallow embedding of the ClawDice dice game.

Sources embedded here:
* `config.js` — game constants and the derived helpers `getMultiplier`,
  `getDynamicMaxBet` (with default environment values: house edge 0.015,
  min bet 10, max bet 50000, initial bankroll 1000000, safety factor 3).
* `dice.js` — `resolveGame`, `verifyGame`.  The cryptographic primitives
  `commitSeed` (SHA-256) and `generateRoll` (first two bytes of an
  HMAC-SHA256 digest) live in Node's `crypto` library, outside this
  repository; the embedding is parameterised over them as functions
  `commit : String → String` and `gen : String → String → Nat`, and every
  theorem quantifies over these parameters (none of the verified
  properties depends on the concrete hash).
* `db.js` — the `games` table modelled as a list of rows, `saveGame`
  (INSERT), `getGame` (SELECT by primary key), `getLeaderboard` (GROUP
  BY / ORDER BY / LIMIT semantics of the SQL string).
* `server.js` — the `/roll` route's parameter parsing and validation
  (including JavaScript `parseInt` / NaN comparison semantics), the
  persist-then-payout flow, and the `/verify/:gameId` projection.

JavaScript numbers are embedded as exact rationals (`ℚ`); the numeric
claims checked below are far coarser than double-precision rounding
error.  A JavaScript number that may be NaN (the result of `parseInt`)
is embedded as `Option Int`, with `none` for NaN; NaN comparisons are
false.
-/

namespace Clawdice

/-! ### config.js (default environment) -/

namespace config

def maxRoll : Nat := 65535

def houseEdge : ℚ := 15 / 1000

def defaultTarget : Nat := 32768

def minBet : Nat := 10

def maxBet : Nat := 50000

def defaultBet : Nat := 100

def bankrollInitial : Nat := 1000000

def safetyFactor : Nat := 3

/-- `config.game.getMultiplier`: win probability `target / (maxRoll + 1)`,
fair multiplier `1 / winProbability`, reduced by the house edge. -/
def getMultiplier (target : Nat) : ℚ :=
  let winProbability : ℚ := (target : ℚ) / ((maxRoll : ℚ) + 1)
  let fairMultiplier : ℚ := 1 / winProbability
  fairMultiplier * (1 - houseEdge)

/-- `config.game.getDynamicMaxBet`: worst case is target 1 (highest
multiplier); bankroll limit is `floor(bankroll / highestMultiplier /
safetyFactor)`, capped by the configured `maxBet`. -/
def getDynamicMaxBet (currentBankroll : Int) : Int :=
  let highestMultiplier := getMultiplier 1
  let bankrollLimit : Int :=
    Int.floor ((currentBankroll : ℚ) / highestMultiplier / (safetyFactor : ℚ))
  min (maxBet : Int) bankrollLimit

end config

/-! ### dice.js -/

/-- JavaScript `Math.round` (round half toward positive infinity). -/
def jsRound (q : ℚ) : Int := Int.floor (q + 1 / 2)

/-- `getMultiplier` in dice.js just delegates to the config helper. -/
def getMultiplier (target : Nat) : ℚ := config.getMultiplier target

/-- The object returned by `resolveGame`. -/
structure ResolvedGame where
  roll : Nat
  target : Nat
  result : String
  betSats : Nat
  multiplier : ℚ
  payoutSats : Int
  serverSeed : String
  serverSeedHash : String
  clientEntropy : String
deriving DecidableEq, Repr

/-- `resolveGame` from dice.js, parameterised over the crypto primitives
`commit` (= `commitSeed`, SHA-256) and `gen` (= `generateRoll`, HMAC
first-two-bytes).  The stored `multiplier` field is rounded to three
decimals (`Math.round(multiplier * 1000) / 1000`); the payout uses the
unrounded multiplier. -/
def resolveGame (commit : String → String) (gen : String → String → Nat)
    (target betSats : Nat) (serverSeed clientEntropy : String) : ResolvedGame :=
  let roll := gen serverSeed clientEntropy
  let multiplier := getMultiplier target
  -- const win = roll < target (inlined at its two uses)
  { roll := roll
    target := target
    result := if roll < target then "win" else "loss"
    betSats := betSats
    multiplier := (jsRound (multiplier * 1000) : ℚ) / 1000
    payoutSats := if roll < target then Int.floor ((betSats : ℚ) * multiplier) else 0
    serverSeed := serverSeed
    serverSeedHash := commit serverSeed
    clientEntropy := clientEntropy }

/-- The object returned by `verifyGame`: either an early rejection with a
reason, or the success object. -/
inductive VerifyResult where
  | failure (reason : String)
  | ok (serverSeed serverSeedHash clientEntropy : String)
      (computedRoll target : Nat) (result : String)
deriving DecidableEq, Repr

def VerifyResult.verified : VerifyResult → Bool
  | .failure _ => false
  | .ok _ _ _ _ _ _ => true

def VerifyResult.reason : VerifyResult → Option String
  | .failure r => some r
  | .ok _ _ _ _ _ _ => none

/-- `verifyGame` from dice.js: recompute the commitment, then the roll,
short-circuiting with a reason on the first mismatch; on success
recompute the expected result from roll vs target. -/
def verifyGame (commit : String → String) (gen : String → String → Nat)
    (serverSeed serverSeedHash clientEntropy : String)
    (roll target : Nat) : VerifyResult :=
  let computedHash := commit serverSeed
  if computedHash ≠ serverSeedHash then
    .failure ("Server seed does not match committed hash")
  else
    let computedRoll := gen serverSeed clientEntropy
    if computedRoll ≠ roll then
      .failure ("Roll does not match HMAC computation")
    else
      let expectedResult := if roll < target then "win" else "loss"
      .ok serverSeed serverSeedHash clientEntropy computedRoll target expectedResult

/-! ### db.js — the `games` table and its operations -/

/-- One row of the `games` table (db.js schema). -/
structure GameRow where
  id : String
  roll : Nat
  target : Nat
  result : String
  betSats : Nat
  multiplier : ℚ
  payoutSats : Int
  payoutMethod : String
  payoutStatus : String
  serverSeed : String
  serverSeedHash : String
  clientEntropy : String
  playerPubkey : Option String
deriving DecidableEq, Repr

/-- `saveGame` (db.js): a plain INSERT — appends a row to the table. -/
def saveGame (db : List GameRow) (game : GameRow) : List GameRow :=
  db ++ [game]

/-- `getGame` (db.js): `SELECT * FROM games WHERE id = ?`, returning the
first matching row or `null`.  (`id` is the primary key.) -/
def getGame (db : List GameRow) (gameId : String) : Option GameRow :=
  db.find? (fun g => g.id = gameId)

/-! ### server.js — the `/roll` route -/

/-- The game record constructed in the `/roll` handler (server.js):
`{ id, ...gameResult, payoutMethod, payoutStatus, playerPubkey }`, with
`payoutStatus` set to `'n/a'` on a loss and `'pending'` otherwise. -/
def buildGameRecord (id : String) (g : ResolvedGame)
    (payoutMethod : String) (playerPubkey : Option String) : GameRow :=
  { id := id
    roll := g.roll
    target := g.target
    result := g.result
    betSats := g.betSats
    multiplier := g.multiplier
    payoutSats := g.payoutSats
    payoutMethod := payoutMethod
    payoutStatus := if g.result = "loss" then "n/a" else "pending"
    serverSeed := g.serverSeed
    serverSeedHash := g.serverSeedHash
    clientEntropy := g.clientEntropy
    playerPubkey := playerPubkey }

/-- The persistence/payout tail of the `/roll` handler (server.js lines
126–151): `saveGame(gameRecord)` first; then, if the game is a win with
positive payout, `sendPayout` is attempted and `gameRecord.payoutStatus`
is assigned `'sent'` (success) or `'failed'` (exception) — an assignment
to the in-memory object only; no further database call occurs.  The
payout attempt's success is the boolean parameter `payoutOk`.  Returns
the database after the flow and the in-memory record used to build the
HTTP response. -/
def rollFinishFlow (db : List GameRow) (gameRecord : GameRow)
    (payoutOk : Bool) : List GameRow × GameRow :=
  let db1 := saveGame db gameRecord
  if gameRecord.result = "win" ∧ 0 < gameRecord.payoutSats then
    (db1, { gameRecord with payoutStatus := if payoutOk then "sent" else "failed" })
  else
    (db1, gameRecord)

/-- The `/verify/:gameId` route (server.js) passes exactly five fields of
the stored row to `verifyGame`. -/
def verifyRoute (commit : String → String) (gen : String → String → Nat)
    (game : GameRow) : VerifyResult :=
  verifyGame commit gen game.serverSeed game.serverSeedHash
    game.clientEntropy game.roll game.target

/-! ### server.js — `/roll` parameter parsing and validation

JavaScript `parseInt` on a query-string value: skip leading whitespace,
optional sign, then a maximal run of decimal digits; no digits means
NaN.  A possibly-NaN number is `Option Int` with `none` for NaN, and
NaN compares false under `<` and `>`. -/

def digitsVal (cs : List Char) : Nat :=
  cs.foldl (fun a c => a * 10 + (c.toNat - 48)) 0

/-- JavaScript `parseInt(s)` for decimal inputs; `none` is NaN. -/
def parseIntJs (s : String) : Option Int :=
  match s.toList.dropWhile (fun c => c = ' ') with
  | '-' :: rest =>
      let ds := rest.takeWhile Char.isDigit
      if ds.isEmpty then none else some (-(digitsVal ds : Int))
  | '+' :: rest =>
      let ds := rest.takeWhile Char.isDigit
      if ds.isEmpty then none else some (digitsVal ds : Int)
  | cs =>
      let ds := cs.takeWhile Char.isDigit
      if ds.isEmpty then none else some (digitsVal ds : Int)

/-- `parseInt(req.query.x || default)`: an absent or empty query value is
falsy, so the numeric default is parsed (yielding itself). -/
def parseParam (q : Option String) (dflt : Int) : Option Int :=
  match q with
  | none => some dflt
  | some s => if s = "" then some dflt else parseIntJs s

/-- JavaScript `a < b` where `a` may be NaN: false on NaN. -/
def jsLtB (a : Option Int) (b : Int) : Bool :=
  match a with
  | some v => v < b
  | none => false

/-- JavaScript `a > b` where `a` may be NaN: false on NaN. -/
def jsGtB (a : Option Int) (b : Int) : Bool :=
  match a with
  | some v => b < v
  | none => false

/-- Outcome of the `/roll` route's validation phase: a 400 with an error
code, a 402, or control reaching the resolution/persistence phase with
the parsed values. -/
inductive RollDecision where
  | badRequest (code : String)
  | paymentRequired
  | proceed (target betSats : Option Int)
deriving DecidableEq, Repr

/-- The validation phase of the `/roll` handler (server.js lines 84–112)
on already-parsed numbers: reject `target < 1 || target > maxRoll` with
`invalid_target`, then `betSats < minBet || betSats > maxBet` with
`invalid_bet`, then missing entropy with 402; otherwise the wager
proceeds to resolution and recording. -/
def rollValidateNum (target betSats : Option Int)
    (entropy : Option String) : RollDecision :=
  if jsLtB target 1 || jsGtB target (config.maxRoll : Int) then
    .badRequest ("invalid_target")
  else if jsLtB betSats (config.minBet : Int) || jsGtB betSats (config.maxBet : Int) then
    .badRequest ("invalid_bet")
  else
    match entropy with
    | none => .paymentRequired
    | some _ => .proceed target betSats

/-- The `/roll` validation phase from the raw query strings:
`parseInt(req.query.target || 32768)`, `parseInt(req.query.bet || 100)`,
then the checks above. -/
def rollValidate (targetQ betQ : Option String)
    (entropy : Option String) : RollDecision :=
  rollValidateNum (parseParam targetQ (config.defaultTarget : Int))
    (parseParam betQ (config.defaultBet : Int)) entropy

/-! ### db.js — `getLeaderboard`

The SQL is
`SELECT player_pubkey, COUNT(*), SUM(bet_sats), SUM(payout_sats),
SUM(payout_sats) - SUM(bet_sats) AS net_profit, MAX(payout_sats)
FROM games WHERE player_pubkey IS NOT NULL GROUP BY player_pubkey
ORDER BY net_profit DESC LIMIT ?`.

The `ORDER BY` clause names only `net_profit`; the SQL contract leaves
the relative order of rows with equal `net_profit` unspecified.  The
embedding is therefore relational: the aggregation per player is a
function, and a result list is admissible when it is a `net_profit`-
descending permutation of the aggregates cut to `limit`. -/

/-- One leaderboard row, per the SELECT column list. -/
structure LeaderEntry where
  playerPubkey : String
  games : Nat
  totalWagered : Nat
  totalWon : Int
  netProfit : Int
  biggestWin : Int
deriving DecidableEq, Repr

/-- The distinct non-null player pubkeys of the table (the GROUP BY /
WHERE clauses); list order is irrelevant below, outputs are compared up
to permutation. -/
def playersOf (db : List GameRow) : List String :=
  (db.filterMap (fun g => g.playerPubkey)).dedup

/-- The aggregate row for one player: COUNT, SUMs, net profit, MAX.
(Groups are nonempty and payouts nonnegative, so the `foldl max 0`
equals SQL's MAX over the group.) -/
def aggregateFor (db : List GameRow) (p : String) : LeaderEntry :=
  let gs := db.filter (fun g => g.playerPubkey = some p)
  let wagered := (gs.map (fun g => g.betSats)).sum
  let won := (gs.map (fun g => g.payoutSats)).sum
  { playerPubkey := p
    games := gs.length
    totalWagered := wagered
    totalWon := won
    netProfit := won - (wagered : Int)
    biggestWin := (gs.map (fun g => g.payoutSats)).foldl max 0 }

/-- All per-player aggregate rows (in an arbitrary fixed order). -/
def allAggregates (db : List GameRow) : List LeaderEntry :=
  (playersOf db).map (aggregateFor db)

/-- Sorted by net profit descending (the ORDER BY contract). -/
def netDescOrdered (l : List LeaderEntry) : Prop :=
  l.Pairwise (fun a b => b.netProfit ≤ a.netProfit)

/-- `out` is an admissible result of `getLeaderboard(limit)` on table
`db`: some full ordering of the aggregates satisfies the ORDER BY
contract and `out` is its first `limit` rows. -/
def validLeaderboard (db : List GameRow) (limit : Nat)
    (out : List LeaderEntry) : Prop :=
  ∃ full : List LeaderEntry,
    full.Perm (allAggregates db) ∧ netDescOrdered full ∧ out = full.take limit

/-- The ordering the claim asserts: net profit descending with ties
broken by player identifier ascending. -/
def claimTieOrder (a b : LeaderEntry) : Prop :=
  b.netProfit < a.netProfit ∨
    (a.netProfit = b.netProfit ∧ a.playerPubkey < b.playerPubkey)

instance (l : List LeaderEntry) : Decidable (netDescOrdered l) := by
  unfold netDescOrdered; infer_instance

/-! ### Concrete instantiations used by witnesses and counterexamples

The crypto parameters get simple executable stand-ins (the theorems
above them hold for arbitrary functions). -/

/-- A concrete stand-in for `commitSeed` used to instantiate witnesses. -/
def hashFn : String → String := fun s => "sha256:" ++ s

/-- A concrete stand-in for `generateRoll` used to instantiate
witnesses. -/
def rollFn : String → String → Nat := fun s e => (s.length + 2 * e.length) % 65536

/-- A degenerate roll function that always rolls 0 (a guaranteed win),
used to exhibit concrete winning games. -/
def gZero : String → String → Nat := fun _ _ => 0

/-- A concrete winning game record as the `/roll` handler builds it:
target 32768, stake 100, roll 3 (win), payout ⌊100 · 1.97⌋ = 197. -/
def winRecord : GameRow :=
  buildGameRecord ("g_w1") (resolveGame hashFn rollFn 32768 100 "s" "e")
    ("keysend") (some ("alice"))

/-- A losing game by player alice: net profit −100. -/
def rowAlice : GameRow :=
  { id := "g_a1"
    roll := 40000
    target := 32768
    result := "loss"
    betSats := 100
    multiplier := 197 / 100
    payoutSats := 0
    payoutMethod := "keysend"
    payoutStatus := "n/a"
    serverSeed := "sa"
    serverSeedHash := "ha"
    clientEntropy := "ea"
    playerPubkey := some ("alice") }

/-- A losing game by player bob: net profit −100, tied with alice. -/
def rowBob : GameRow :=
  { rowAlice with
    id := "g_b1"
    serverSeed := "sb"
    serverSeedHash := "hb"
    clientEntropy := "eb"
    playerPubkey := some ("bob") }

/-- A two-player table whose leaderboard has a net-profit tie. -/
def dbTied : List GameRow := [rowAlice, rowBob]

/-- Alice's aggregate row in `dbTied`. -/
def entryAlice : LeaderEntry :=
  { playerPubkey := "alice"
    games := 1
    totalWagered := 100
    totalWon := 0
    netProfit := -100
    biggestWin := 0 }

/-- Bob's aggregate row in `dbTied`. -/
def entryBob : LeaderEntry :=
  { entryAlice with playerPubkey := "bob" }

/-! ## Theorems -/

/-- The multiplier in closed form: `65536/target · 197/200`. -/
theorem getMultiplier_eq (target : Nat) :
    getMultiplier target = 65536 / (target : ℚ) * (197 / 200) := by
  simp only [getMultiplier, config.getMultiplier, config.houseEdge, config.maxRoll]
  rw [one_div_div]
  norm_num

/-- A stake of at least 10 at any valid target buys at least one sat of
potential payout. -/
theorem one_le_bet_mul_multiplier {target betSats : Nat}
    (h1 : 1 ≤ target) (h2 : target ≤ 65535) (hb : 10 ≤ betSats) :
    (1 : ℚ) ≤ (betSats : ℚ) * getMultiplier target := by
  have ht0 : (0 : ℚ) < (target : ℚ) := by exact_mod_cast h1
  have ht : (target : ℚ) ≤ 65535 := by exact_mod_cast h2
  have hbq : (10 : ℚ) ≤ (betSats : ℚ) := by exact_mod_cast hb
  rw [getMultiplier_eq]
  have hrw : (betSats : ℚ) * (65536 / (target : ℚ) * (197 / 200)) =
      (betSats : ℚ) * 65536 * (197 / 200) / (target : ℚ) := by ring
  rw [hrw, le_div_iff₀ ht0]
  nlinarith [hbq, ht]

/-- C7: for every threshold in [1, 65535], `multiplier(threshold)` equals
`(1 / (threshold / 65536)) * (1 - houseEdge)` with house edge 0.015, and
`multiplier(32768)`, `multiplier(16384)`, `multiplier(49152)` are within
0.01 of 1.970, 3.940 and 1.313 respectively. -/
theorem C7_multiplier_formula_and_samples :
    (∀ target : Nat, 1 ≤ target → target ≤ 65535 →
      getMultiplier target = 1 / ((target : ℚ) / 65536) * (1 - 15 / 1000)) ∧
    |getMultiplier 32768 - 1970 / 1000| < 1 / 100 ∧
    |getMultiplier 16384 - 3940 / 1000| < 1 / 100 ∧
    |getMultiplier 49152 - 1313 / 1000| < 1 / 100 := by
  refine ⟨fun t _ _ => ?_, ?_, ?_, ?_⟩
  · rw [getMultiplier_eq, one_div_div]
    norm_num
  all_goals rw [getMultiplier_eq, abs_lt]
  all_goals constructor <;> norm_num

/-- C7 witness: the formula instantiated at threshold 32768. -/
theorem C7_witness :
    getMultiplier 32768 = 1 / ((32768 : ℚ) / 65536) * (1 - 15 / 1000) :=
  C7_multiplier_formula_and_samples.1 32768 (by norm_num) (by norm_num)

/-- C3: with the default configuration (house edge 0.015) and a stake of
at least the minimum bet 10, `resolveGame` tags `win` exactly when the
roll is below the target, and the payout is nonzero exactly on a win. -/
theorem C3_win_iff_roll_lt_target (commit : String → String)
    (gen : String → String → Nat) (target betSats : Nat)
    (seed entropy : String)
    (h1 : 1 ≤ target) (h2 : target ≤ 65535) (hb : 10 ≤ betSats) :
    ((resolveGame commit gen target betSats seed entropy).result = "win" ↔
      (resolveGame commit gen target betSats seed entropy).roll < target) ∧
    ((resolveGame commit gen target betSats seed entropy).payoutSats ≠ 0 ↔
      (resolveGame commit gen target betSats seed entropy).result = "win") := by
  by_cases hw : gen seed entropy < target
  · have hq := one_le_bet_mul_multiplier h1 h2 hb
    simp [resolveGame, hw]
    exact fun _ => hq
  · simp [resolveGame, hw]

/-- C3 witness: a concrete resolved game at target 32768, stake 100. -/
theorem C3_witness :
    ((resolveGame hashFn rollFn 32768 100 "s" "e").result = "win" ↔
      (resolveGame hashFn rollFn 32768 100 "s" "e").roll < 32768) ∧
    ((resolveGame hashFn rollFn 32768 100 "s" "e").payoutSats ≠ 0 ↔
      (resolveGame hashFn rollFn 32768 100 "s" "e").result = "win") :=
  C3_win_iff_roll_lt_target hashFn rollFn 32768 100 "s" "e"
    (by norm_num) (by norm_num) (by norm_num)

/-- C4 counterexample: at target 49152 (multiplier 197/150 = 1.31333…)
and stake 10000 (within the configured bet bounds), the payout is
⌊10000 · 197/150⌋ = 13133, but the multiplier recorded in the record is
the 3-decimal rounding 1.313, and ⌊10000 · 1.313⌋ = 13130 ≠ 13133: the
payout of this win record does not equal ⌊stake · recordedMultiplier⌋. -/
theorem C4_cex :
    (resolveGame hashFn gZero 49152 10000 "s" "e").result = "win" ∧
    (resolveGame hashFn gZero 49152 10000 "s" "e").multiplier = 1313 / 1000 ∧
    (resolveGame hashFn gZero 49152 10000 "s" "e").payoutSats = 13133 ∧
    (resolveGame hashFn gZero 49152 10000 "s" "e").payoutSats ≠
      Int.floor ((10000 : ℚ) *
        (resolveGame hashFn gZero 49152 10000 "s" "e").multiplier) := by
  have hm : getMultiplier 49152 = 197 / 150 := by
    rw [getMultiplier_eq]; norm_num
  have hmul : (resolveGame hashFn gZero 49152 10000 "s" "e").multiplier =
      1313 / 1000 := by
    show ((jsRound (getMultiplier 49152 * 1000)) : ℚ) / 1000 = 1313 / 1000
    rw [hm]
    norm_num [jsRound]
  have hpay : (resolveGame hashFn gZero 49152 10000 "s" "e").payoutSats =
      13133 := by
    show (if gZero "s" "e" < 49152
        then Int.floor ((10000 : ℚ) * getMultiplier 49152) else 0) = 13133
    rw [if_pos (by decide), hm]
    norm_num
  refine ⟨rfl, hmul, hpay, ?_⟩
  rw [hpay, hmul]
  norm_num

/-- C4 amended: the payout of a win equals ⌊stake · multiplier(target)⌋
for the full-precision multiplier, and a loss pays exactly 0; the
multiplier recorded in the record is the full-precision multiplier
rounded to three decimals (so the payout need not equal
⌊stake · recordedMultiplier⌋, as the counterexample shows). -/
theorem C4_payout_floor_of_full_precision (commit : String → String)
    (gen : String → String → Nat) (target betSats : Nat)
    (seed entropy : String) :
    (resolveGame commit gen target betSats seed entropy).payoutSats =
      (if (resolveGame commit gen target betSats seed entropy).result = "win"
        then Int.floor ((betSats : ℚ) * getMultiplier target) else 0) ∧
    (resolveGame commit gen target betSats seed entropy).multiplier =
      (jsRound (getMultiplier target * 1000) : ℚ) / 1000 := by
  by_cases hw : gen seed entropy < target <;> simp [resolveGame, hw]

/-- C5 counterexample: at a commitment mismatch the code's reason string
is 'Server seed does not match committed hash', not the claimed literal
"seed/hash mismatch". -/
theorem C5_cex :
    verifyGame hashFn rollFn "seed" "bogus" "e" 7 100 =
      .failure ("Server seed does not match committed hash") ∧
    (verifyGame hashFn rollFn "seed" "bogus" "e" 7 100).reason ≠
      some ("seed/hash mismatch") := by
  refine ⟨?_, ?_⟩ <;> decide

/-- C5 amended: verifyGame checks the commitment first and the roll
second, short-circuiting on the first failure — a commitment mismatch
yields verified=false with reason 'Server seed does not match committed
hash' (for every roll function, i.e. without the outcome being checked),
a roll mismatch yields verified=false with reason 'Roll does not match
HMAC computation', and if both match it returns the success object with
the expected result recomputed from roll vs target. -/
theorem C5_order_and_reasons (commit : String → String)
    (gen : String → String → Nat) (seed hash entropy : String)
    (roll target : Nat) :
    (commit seed ≠ hash →
      verifyGame commit gen seed hash entropy roll target =
        .failure ("Server seed does not match committed hash")) ∧
    (commit seed = hash → gen seed entropy ≠ roll →
      verifyGame commit gen seed hash entropy roll target =
        .failure ("Roll does not match HMAC computation")) ∧
    (commit seed = hash → gen seed entropy = roll →
      verifyGame commit gen seed hash entropy roll target =
        .ok seed hash entropy roll target
          (if roll < target then "win" else "loss")) := by
  refine ⟨fun h => ?_, fun h1 h2 => ?_, fun h1 h2 => ?_⟩
  · simp [verifyGame, h]
  · simp [verifyGame, h1, h2]
  · simp [verifyGame, h1, h2]

/-- C5 witness: the three branches of the amended theorem at concrete
inputs (`hashFn "s" = "sha256:s"`, `rollFn "s" "e" = 3`). -/
theorem C5_witness :
    verifyGame hashFn rollFn "seed" "wrong" "e" 7 100 =
      .failure ("Server seed does not match committed hash") ∧
    verifyGame hashFn rollFn "s" "sha256:s" "e" 9 100 =
      .failure ("Roll does not match HMAC computation") ∧
    verifyGame hashFn rollFn "s" "sha256:s" "e" 3 100 =
      .ok "s" "sha256:s" "e" 3 100 (if 3 < 100 then "win" else "loss") :=
  ⟨(C5_order_and_reasons hashFn rollFn "seed" "wrong" "e" 7 100).1 (by decide),
   (C5_order_and_reasons hashFn rollFn "s" "sha256:s" "e" 9 100).2.1
     (by decide) (by decide),
   (C5_order_and_reasons hashFn rollFn "s" "sha256:s" "e" 3 100).2.2
     (by decide) (by decide)⟩

/-- C6: verifyGame on the fields produced by resolveGame always returns
verified=true, and replacing the roll field by any different value in
[0, 65535] yields verified=false with the outcome-mismatch reason. -/
theorem C6_roundtrip (commit : String → String) (gen : String → String → Nat)
    (target betSats : Nat) (seed entropy : String) (g : ResolvedGame)
    (hg : g = resolveGame commit gen target betSats seed entropy)
    (r' : Nat) :
    (verifyGame commit gen g.serverSeed g.serverSeedHash g.clientEntropy
      g.roll g.target).verified = true ∧
    (r' ≤ 65535 → r' ≠ g.roll →
      verifyGame commit gen g.serverSeed g.serverSeedHash g.clientEntropy
        r' g.target = .failure ("Roll does not match HMAC computation")) := by
  subst hg
  constructor
  · simp [resolveGame, verifyGame, VerifyResult.verified]
  · intro _ hne
    have hne' : gen seed entropy ≠ r' := by
      intro h
      exact hne (by simpa [resolveGame] using h.symm)
    simp [resolveGame, verifyGame, hne']

/-- C6 witness: a concrete round trip (roll 3) and a concrete tampered
roll (4). -/
theorem C6_witness :
    (verifyGame hashFn rollFn "s" "sha256:s" "e" 3 32768).verified = true ∧
    verifyGame hashFn rollFn "s" "sha256:s" "e" 4 32768 =
      .failure ("Roll does not match HMAC computation") := by
  have h := C6_roundtrip hashFn rollFn 32768 100 "s" "e" _ rfl 4
  exact ⟨h.1, h.2 (by norm_num) (by decide)⟩

/-- C10: the `/verify/:gameId` route's verification depends only on the
row's serverSeed, serverSeedHash, clientEntropy, roll and target: rows
equal on those five fields verify identically, and a row produced by the
pipeline whose result, payout or multiplier fields are overwritten
arbitrarily still verifies with verified=true. -/
theorem C10_verify_reads_only_five_fields (commit : String → String)
    (gen : String → String → Nat) (r1 r2 : GameRow)
    (h1 : r1.serverSeed = r2.serverSeed)
    (h2 : r1.serverSeedHash = r2.serverSeedHash)
    (h3 : r1.clientEntropy = r2.clientEntropy)
    (h4 : r1.roll = r2.roll) (h5 : r1.target = r2.target) :
    verifyRoute commit gen r1 = verifyRoute commit gen r2 ∧
    ∀ (id pm : String) (pk : Option String) (target betSats : Nat)
      (seed entropy res' : String) (mult' : ℚ) (pay' : Int),
      (verifyRoute commit gen
        { buildGameRecord id (resolveGame commit gen target betSats seed entropy)
            pm pk with
          result := res', payoutSats := pay', multiplier := mult' }).verified =
        true := by
  constructor
  · unfold verifyRoute
    rw [h1, h2, h3, h4, h5]
  · intro id pm pk target betSats seed entropy res' mult' pay'
    simp [verifyRoute, buildGameRecord, resolveGame, verifyGame,
      VerifyResult.verified]

/-- C10 witness: the tampered copy of a stored row (result flipped to
win, payout and multiplier overwritten) verifies exactly like the
original. -/
theorem C10_witness :
    verifyRoute hashFn rollFn rowAlice =
      verifyRoute hashFn rollFn
        { rowAlice with result := "win", payoutSats := 197, multiplier := 2 } :=
  (C10_verify_reads_only_five_fields hashFn rollFn rowAlice
    { rowAlice with result := "win", payoutSats := 197, multiplier := 2 }
    rfl rfl rfl rfl rfl).1

/-- With the default initial bankroll of 1,000,000 sats the
bankroll-derived ceiling is min(50000, ⌊1000000 / 64552.96 / 3⌋) = 5. -/
theorem getDynamicMaxBet_default : config.getDynamicMaxBet 1000000 = 5 := by
  have hm : config.getMultiplier 1 = 1613824 / 25 :=
    (getMultiplier_eq 1).trans (by norm_num)
  simp only [config.getDynamicMaxBet, hm, config.safetyFactor, config.maxBet]
  norm_num

/-- C1 counterexample: a stake of 100 at target 32768 with the default
bankroll of 1,000,000 exceeds the bankroll-derived effective ceiling
min(configuredMaxBet, dynamicMaxBet) = 5, yet the request passes the
`/roll` validation (which checks only the configured [10, 50000]) and
proceeds to resolution and recording — it is not rejected.  The request
path never reads the bankroll and never calls `getDynamicMaxBet`. -/
theorem C1_cex :
    config.getDynamicMaxBet 1000000 = 5 ∧
    (100 : Int) > config.getDynamicMaxBet 1000000 ∧
    rollValidate (some ("32768")) (some ("100")) (some ("entropy")) =
      .proceed (some 32768) (some 100) := by
  refine ⟨getDynamicMaxBet_default, ?_, ?_⟩
  · rw [getDynamicMaxBet_default]; norm_num
  · decide

/-- C1 amended: `/roll` admission checks only the configured bet bounds
[minBet, maxBet] = [10, 50000]: a stake inside them is admitted even if
it exceeds the bankroll-derived dynamicMaxBet (which
`config.game.getDynamicMaxBet` computes but no caller ever applies). -/
theorem C1_configured_bounds_only (t b bankroll : Int) (e : String)
    (h1 : 1 ≤ t) (h2 : t ≤ 65535) (hb1 : 10 ≤ b) (hb2 : b ≤ 50000)
    (_hover : config.getDynamicMaxBet bankroll < b) :
    rollValidateNum (some t) (some b) (some e) = .proceed (some t) (some b) := by
  unfold rollValidateNum jsLtB jsGtB config.maxRoll config.minBet config.maxBet
  have ht1 : ¬ (t < 1) := by omega
  have ht2 : ¬ ((65535 : Int) < t) := by omega
  have hbb1 : ¬ (b < 10) := by omega
  have hbb2 : ¬ ((50000 : Int) < b) := by omega
  simp [ht1, ht2, hbb1, hbb2]

/-- C1 witness: stake 100 at target 32768 against bankroll 1,000,000
(dynamic ceiling 5 < 100) is admitted. -/
theorem C1_witness :
    rollValidateNum (some 32768) (some 100) (some ("e")) =
      .proceed (some 32768) (some 100) :=
  C1_configured_bounds_only 32768 100 1000000 "e" (by norm_num) (by norm_num)
    (by norm_num) (by norm_num)
    (by rw [getDynamicMaxBet_default]; norm_num)

/-- C8: a non-numeric target such as "abc" parses to NaN, and both
validation comparisons (NaN < 1, NaN > 65535) are false, so the request
is not answered with 400 invalid_target — it proceeds to resolution and
recording (with a NaN target, every roll is a loss), contradicting the
code's own validation branch and the games table's
`target INTEGER NOT NULL` schema. -/
theorem C8_nan_target_bypasses_validation :
    parseIntJs ("abc") = none ∧
    rollValidate (some ("abc")) (some ("100")) (some ("entropy")) =
      .proceed none (some 100) ∧
    rollValidate (some ("abc")) (some ("100")) (some ("entropy")) ≠
      .badRequest ("invalid_target") := by
  refine ⟨?_, ?_, ?_⟩ <;> decide

/-- Inserting a row whose id is not yet in the table makes it the row
`getGame` returns for that id. -/
theorem getGame_saveGame_self (db : List GameRow) (g : GameRow)
    (h : getGame db g.id = none) : getGame (saveGame db g) g.id = some g := by
  unfold getGame saveGame
  unfold getGame at h
  revert h
  induction db with
  | nil => intro _; simp
  | cons a l ih =>
      intro h
      rw [List.cons_append]
      by_cases ha : a.id = g.id
      · rw [List.find?_cons_of_pos _ (by simpa using ha)] at h
        exact absurd h (by simp)
      · rw [List.find?_cons_of_neg _ (by simpa using ha)] at h
        rw [List.find?_cons_of_neg _ (by simpa using ha)]
        exact ih h

/-- The concrete winning record pays ⌊100 · 1.97⌋ = 197 sats. -/
theorem winRecord_payout : winRecord.payoutSats = 197 := by
  have hm : getMultiplier 32768 = 197 / 100 :=
    (getMultiplier_eq 32768).trans (by norm_num)
  show (if rollFn "s" "e" < 32768
      then Int.floor ((100 : ℚ) * getMultiplier 32768) else 0) = 197
  rw [if_pos (by decide), hm]
  norm_num

/-- C2 counterexample: a winning wager (payout 197) whose payout delivery
succeeds — the in-memory record used for the HTTP response carries
payout status 'sent', but the persisted record returned by `getGame`
still carries 'pending': the status transition never reaches the durable
ledger (db.js has no update operation). -/
theorem C2_cex :
    winRecord.result = "win" ∧ 0 < winRecord.payoutSats ∧
    (rollFinishFlow [] winRecord true).2.payoutStatus = "sent" ∧
    (getGame (rollFinishFlow [] winRecord true).1 winRecord.id).map
      GameRow.payoutStatus = some ("pending") := by
  have hpos : 0 < winRecord.payoutSats := by rw [winRecord_payout]; norm_num
  refine ⟨rfl, hpos, ?_, ?_⟩
  · unfold rollFinishFlow
    rw [if_pos ⟨rfl, hpos⟩]
    rfl
  · unfold rollFinishFlow
    rw [if_pos ⟨rfl, hpos⟩]
    simp [getGame, saveGame]
    rfl

/-- C2 amended: the winning record is persisted first (with the payout
status it was built with — 'pending' for a win); after payout delivery
the 'sent'/'failed' transition is applied only to the in-memory copy:
the durable ledger still returns the record exactly as saved. -/
theorem C2_status_transition_in_memory_only (db : List GameRow)
    (g : GameRow) (ok : Bool) (hfresh : getGame db g.id = none)
    (hwin : g.result = "win") (hpos : 0 < g.payoutSats) :
    getGame (rollFinishFlow db g ok).1 g.id = some g ∧
    (rollFinishFlow db g ok).2.payoutStatus =
      (if ok then "sent" else "failed") ∧
    (∀ (id pm : String) (pk : Option String) (r : ResolvedGame),
      r.result = "win" → (buildGameRecord id r pm pk).payoutStatus = "pending") := by
  unfold rollFinishFlow
  rw [if_pos ⟨hwin, hpos⟩]
  refine ⟨getGame_saveGame_self db g hfresh, rfl, ?_⟩
  intro id pm pk r hr
  simp [buildGameRecord, hr]

/-- C2 witness: the amended theorem at the concrete winning record. -/
theorem C2_witness :
    getGame (rollFinishFlow [] winRecord true).1 winRecord.id =
      some winRecord ∧
    (rollFinishFlow [] winRecord true).2.payoutStatus =
      (if true then "sent" else "failed") ∧
    (∀ (id pm : String) (pk : Option String) (r : ResolvedGame),
      r.result = "win" →
        (buildGameRecord id r pm pk).payoutStatus = "pending") :=
  C2_status_transition_in_memory_only [] winRecord true rfl rfl
    (by rw [winRecord_payout]; norm_num)

/-- The aggregate rows of the tied two-player table. -/
theorem allAggregates_dbTied :
    allAggregates dbTied = [entryAlice, entryBob] := by decide

/-- C9 counterexample: on a table where alice and bob are tied at net
profit −100, both orders of the two aggregate rows satisfy the query's
ORDER BY contract (`net_profit DESC` with no secondary key), and the
bob-first order violates the claimed tie-break by ascending player
identifier — so the code does not guarantee the claimed deterministic
order. -/
theorem C9_cex :
    validLeaderboard dbTied 20 [entryBob, entryAlice] ∧
    validLeaderboard dbTied 20 [entryAlice, entryBob] ∧
    ¬ ([entryBob, entryAlice].Pairwise claimTieOrder) ∧
    ([entryBob, entryAlice] : List LeaderEntry) ≠ [entryAlice, entryBob] := by
  have hnot : ¬ claimTieOrder entryBob entryAlice := by
    intro hco
    rcases hco with hlt | ⟨-, hlt⟩
    · exact absurd hlt (by decide)
    · rw [String.lt_iff_toList_lt] at hlt
      exact absurd hlt (by decide)
  refine ⟨⟨[entryBob, entryAlice], ?_, by decide, rfl⟩,
    ⟨[entryAlice, entryBob], ?_, by decide, rfl⟩, ?_, by decide⟩
  · exact (List.Perm.swap entryAlice entryBob []).trans
      (List.Perm.of_eq allAggregates_dbTied.symm)
  · exact List.Perm.of_eq allAggregates_dbTied.symm
  · intro hp
    cases hp with
    | cons hh _ => exact hnot (hh entryAlice (by simp))

/-- C9 amended: every admissible leaderboard result is sorted by net
profit descending and consists of correct per-player aggregate rows, but
the order of rows with equal net profit is not constrained (the SQL has
no secondary sort key), so no tie-break — and hence no determinism — is
guaranteed. -/
theorem C9_sorted_desc_only (db : List GameRow) (limit : Nat)
    (out : List LeaderEntry) (h : validLeaderboard db limit out) :
    netDescOrdered out ∧ ∀ e ∈ out, e ∈ allAggregates db := by
  obtain ⟨full, hperm, hsort, hout⟩ := h
  subst hout
  constructor
  · exact hsort.sublist (List.take_sublist _ _)
  · intro e he
    exact hperm.subset (List.mem_of_mem_take he)

/-- C9 witness: the amended theorem at the concrete tied table. -/
theorem C9_witness :
    netDescOrdered [entryAlice, entryBob] ∧
    ∀ e ∈ [entryAlice, entryBob], e ∈ allAggregates dbTied :=
  C9_sorted_desc_only dbTied 20 [entryAlice, entryBob]
    ⟨[entryAlice, entryBob], List.Perm.of_eq allAggregates_dbTied.symm,
      by decide, rfl⟩

end Clawdice
